import Mathlib

set_option maxRecDepth 40000

/-!
Verification of the ferris karaoke server's coordination layer.

This file gives a shallow embedding of the queue actor
(`src/actors/song_coordinator.rs`), the download worker pipeline
(`src/actors/video_downloader.rs`, `src/utils/yt_downloader.rs`) and the DASH
transcode command builder (`src/utils/dash_processor.rs`), and proves the
specified properties about them.

Modelling conventions:
- Rust `VecDeque<Song>` is a Lean `List Song` (front of the deque = head).
- `Uuid` is modelled as `Nat` (an opaque identity token with decidable equality).
- The `i8` key offset is modelled as `Int`; the actor's own bound checks keep it
  inside `[-3, 3]`, far from `i8` overflow, so `Int` arithmetic is faithful.
- The broadcast channel is modelled by recording the list of events that a
  handler attempts to `send`; the source ignores send errors (a failed
  broadcast never changes the reply or the state), so no success flag is needed.
- `oneshot` reply channels become return values.
-/

namespace Ferris

/-- Song status, from `enum QueuedSongStatus` in `song_coordinator.rs`. -/
inductive QueuedSongStatus where
  | inProgress
  | failed
  | success
deriving DecidableEq, Repr

/-- A queued song, from `struct Song` in `song_coordinator.rs`. -/
structure Song where
  name : String
  uuid : Nat
  yt_link : String
  status : QueuedSongStatus
  is_key_changeable : Bool
deriving DecidableEq, Repr

/-- Rust `impl PartialEq for Song`: two songs are equal when their uuids match OR
their names match. -/
def songEq (a b : Song) : Bool :=
  a.uuid == b.uuid || a.name == b.name

/-- Coordination errors, from `enum SongCoordinatorError` (only the variants the
handlers actually return). -/
inductive SongCoordinatorError where
  | songAlreadyQueued (name : String)
  | keyUpFailed
  | keyDownFailed
  | updateSongStatusFailed (uuid : Nat)
deriving DecidableEq, Repr

/-- Broadcast events, from `enum SseEvent` in `routes/sse.rs`. -/
inductive SseEvent where
  | queueUpdated (queue : List Song)
  | keyChange (current_key : Int)
  | togglePlayback
  | restartSong
deriving DecidableEq, Repr

/-- The actor's mutable state, from `struct SongActor` (`song_deque` and
`current_key`; the receiver and broadcaster handles are modelled by the message
list and the event trace). -/
structure SongState where
  song_deque : List Song
  current_key : Int
deriving DecidableEq, Repr

/-- The state the actor starts in, from `SongActor::new`. -/
def SongState.initial : SongState := { song_deque := [], current_key := 0 }

/-- Actor messages, from `enum SongActorMessage` (the `respond_to` channels are
modelled as return values of the handler). -/
inductive SongActorMessage where
  | queueSong (song : Song)
  | removeSong (song_uuid : Nat)
  | popSong
  | reposition (song_uuid : Nat) (position : Nat)
  | current
  | getQueue
  | keyUp
  | keyDown
  | getKey
  | updateSongStatus (song_uuid : Nat) (status : QueuedSongStatus)
deriving DecidableEq, Repr

instance {ε α : Type} [DecidableEq ε] [DecidableEq α] : DecidableEq (Except ε α)
  | .error a, .error b => decidable_of_iff (a = b) (by simp)
  | .error _, .ok _ => .isFalse (by simp)
  | .ok _, .error _ => .isFalse (by simp)
  | .ok a, .ok b => decidable_of_iff (a = b) (by simp)

/-- The reply a handler sends on the message's `respond_to` channel, one
constructor per oneshot payload type used in `SongActorMessage`. -/
inductive SongReply where
  | unitRes (r : Except SongCoordinatorError Unit)
  | ack
  | optSong (s : Option Song)
  | optSongRes (r : Except SongCoordinatorError (Option Song))
  | queueRes (r : Except SongCoordinatorError (List Song))
  | keyRes (r : Except SongCoordinatorError Int)
deriving DecidableEq, Repr

/-- Replace the status of the first song whose uuid matches, from the
`iter_mut().find(...)` + in-place mutation in the `UpdateSongStatus` arm. -/
def updateFirstStatus (uuid : Nat) (st : QueuedSongStatus) : List Song → List Song
  | [] => []
  | x :: xs =>
      if x.uuid == uuid then { x with status := st } :: xs
      else x :: updateFirstStatus uuid st xs

/-- Translation of `SongActor::handle_message`, arm by arm. The result is the new
state, the reply sent on the `respond_to` channel, and the list of events the handler
attempts to broadcast (the source logs and ignores broadcast failures, replying
identically in both arms, so they are not modelled). -/
def handleMessage (s : SongState) : SongActorMessage → SongState × SongReply × List SseEvent
  | .queueSong song =>
      if s.song_deque.any (fun x => songEq x song) then
        (s, .unitRes (.error (.songAlreadyQueued song.name)), [])
      else
        let q := s.song_deque ++ [song]
        ({ s with song_deque := q }, .unitRes (.ok ()), [.queueUpdated q])
  | .removeSong song_uuid =>
      let q :=
        match s.song_deque.findIdx? (fun x => x.uuid == song_uuid) with
        | some index => s.song_deque.eraseIdx index
        | none => s.song_deque
      ({ s with song_deque := q }, .ack, [.queueUpdated q])
  | .popSong =>
      let next_song := s.song_deque.head?
      let q := s.song_deque.tail
      ({ song_deque := q, current_key := 0 }, .optSong next_song, [.queueUpdated q])
  | .reposition song_uuid position =>
      match s.song_deque.findIdx? (fun x => x.uuid == song_uuid) with
      | some current_index =>
          match s.song_deque[current_index]? with
          | some song =>
              let q1 := s.song_deque.eraseIdx current_index
              let new_position := min position q1.length
              let q := q1.insertIdx new_position song
              ({ s with song_deque := q }, .unitRes (.ok ()), [.queueUpdated q])
          | none => (s, .unitRes (.ok ()), [])
      | none => (s, .unitRes (.ok ()), [])
  | .current => (s, .optSongRes (.ok s.song_deque.head?), [])
  | .getQueue => (s, .queueRes (.ok s.song_deque), [])
  | .keyUp =>
      if s.current_key ≥ 3 then
        (s, .keyRes (.error .keyUpFailed), [])
      else
        let k := s.current_key + 1
        ({ s with current_key := k }, .keyRes (.ok k), [.keyChange k])
  | .keyDown =>
      if s.current_key ≤ -3 then
        (s, .keyRes (.error .keyDownFailed), [])
      else
        let k := s.current_key - 1
        ({ s with current_key := k }, .keyRes (.ok k), [.keyChange k])
  | .getKey => (s, .keyRes (.ok s.current_key), [])
  | .updateSongStatus song_uuid status =>
      if s.song_deque.any (fun x => x.uuid == song_uuid) then
        let q := updateFirstStatus song_uuid status s.song_deque
        ({ s with song_deque := q }, .unitRes (.ok ()), [.queueUpdated q])
      else
        (s, .unitRes (.error (.updateSongStatusFailed song_uuid)), [])

/-- Translation of `run_song_actor`: the actor loop receives mailbox messages one at a time and
handles each to completion before receiving the next. The mailbox-arrival order
is the list order. -/
def runSongActor (s : SongState) : List SongActorMessage → SongState
  | [] => s
  | msg :: msgs => runSongActor (handleMessage s msg).1 msgs

/-- Modelled from the spec: "replaying the same operations sequentially in the
order their messages were accepted into the actor's mailbox" — a sequential
left fold of the one-message handler over the mailbox order. -/
def replaySequentially (s : SongState) (msgs : List SongActorMessage) : SongState :=
  msgs.foldl (fun st msg => (handleMessage st msg).1) s

/-! Download pipeline (`video_downloader.rs`, `yt_downloader.rs`). -/

/-- On-disk cache manifest, from `struct VideoStatus` in `video_downloader.rs`
(`segments : u32` modelled as `Nat`). -/
structure VideoStatus where
  segments : Nat
  is_key_changeable : Bool
deriving DecidableEq, Repr

/-- Successful fetch metadata, from `struct VideoMetadata` in
`yt_downloader.rs`; the `f64` duration is modelled as a rational. -/
structure VideoMetadata where
  directory : String
  filename : String
  extension : String
  duration_seconds : ℚ
deriving DecidableEq, Repr

/-- Pipeline errors, from `enum VideoProcessError` (the variants the modelled
paths construct; the formatted inner messages are kept as plain strings). -/
inductive VideoProcessError where
  | downloadError (msg : String)
  | filenameError (msg : String)
  | pitchShiftError (msg : String)
  | durationParseError (msg : String)
deriving DecidableEq, Repr

/-- Transcode mode, from `enum ProcessingMode` in `dash_processor.rs`. -/
inductive ProcessingMode where
  | copy
  | pitchShift (shifts : List Int)
deriving DecidableEq, Repr

/-- Rust `format!("{:05}", n)`: the decimal digits of `n` left-padded with
zeros to width at least 5. -/
def pad5 (n : Nat) : String :=
  String.mk (List.replicate (5 - (toString n).length) '0') ++ toString n

/-- Rust `f64 as u32` on a nonnegative integral value: saturating cast. -/
def satU32 (z : Int) : Nat := min z.toNat (2 ^ 32 - 1)

/-- The effect environment of one download job: what the filesystem and the
external tools do when this job runs. `fs` is `Path::exists`, `readStatus` is
`File::open` + `serde_json::from_reader` collapsed (`none` on any failure),
`download` is the `YtDownloader::download` outcome, and the three booleans are
the outcomes of `remove_dir_all`, `File::create`, `serde_json::to_writer_pretty`
and `DashProcessor::execute`. -/
structure DlEnv where
  fs : String → Bool
  readStatus : String → Option VideoStatus
  download : Except String VideoMetadata
  removeDirOk : Bool
  createStatusOk : Bool
  writeStatusOk : Bool
  transcodeOk : Bool

/-- Translation of `VideoDlActor::video_exists`, made check by check: manifest file must
exist, open+parse must succeed, a pitch-changeable request needs a
pitch-changeable manifest, and the chunk file indexed by the manifest's segment
count must exist. -/
def video_exists (fs : String → Bool) (readStatus : String → Option VideoStatus)
    (base_path : String) (is_key_changeable : Bool) : Bool :=
  let status_path := base_path ++ "/status.json"
  if !(fs status_path) then false
  else
    match readStatus status_path with
    | none => false
    | some status =>
        if is_key_changeable && !status.is_key_changeable then false
        else fs (base_path ++ "/chunk-stream1-" ++ pad5 status.segments ++ ".m4s")

/-- The cache-hit condition of `VideoDlActor::handle_message`:
`Path::new(&video_path).exists() && self.video_exists(&video_path, is_key_changeable)`. -/
def cacheCheck (env : DlEnv) (base_dir name : String) (is_key_changeable : Bool) : Bool :=
  let video_path := base_dir ++ "/" ++ name
  env.fs video_path && video_exists env.fs env.readStatus video_path is_key_changeable

/-- The mode `process_video` selects for the transcode step. -/
def selectMode (is_key_changeable : Bool) : ProcessingMode :=
  if is_key_changeable then .pitchShift [-3, -2, -1, 0, 1, 2, 3] else .copy

/-- The externally visible stages a pipeline run completes, in order. A
`writeManifest` step records the manifest value that was persisted. -/
inductive PipelineStep where
  | clearDir
  | fetch
  | writeManifest (st : VideoStatus)
  | transcode (mode : ProcessingMode)
deriving DecidableEq, Repr

/-- Translation of `VideoDlActor::process_video`: fetch, then write the manifest
`{segments = ceil(duration / segment_duration), is_key_changeable}`, then
transcode. Returns the job response, the manifest content persisted on disk
(`none` when no parseable manifest was written), and the completed stages in
order. -/
def process_video (env : DlEnv) (is_key_changeable : Bool) (segment_duration : Nat) :
    Except VideoProcessError String × Option VideoStatus × List PipelineStep :=
  match env.download with
  | .error e => (.error (.downloadError e), none, [.fetch])
  | .ok md =>
      let status : VideoStatus :=
        ⟨satU32 ⌈md.duration_seconds / (segment_duration : ℚ)⌉, is_key_changeable⟩
      if env.createStatusOk then
        if env.writeStatusOk then
          let mode := selectMode is_key_changeable
          if env.transcodeOk then
            (.ok (md.directory ++ "/" ++ md.filename ++ "." ++ md.extension), some status,
              [.fetch, .writeManifest status, .transcode mode])
          else
            (.error (.pitchShiftError "Pitch shift failed"), some status,
              [.fetch, .writeManifest status, .transcode mode])
        else (.error (.pitchShiftError "Failed to write status file"), none, [.fetch])
      else (.error (.pitchShiftError "Failed to create status file"), none, [.fetch])

/-- Translation of `VideoDlActor::handle_message` for `DownloadVideo`: answer from the cache
when the cache check passes; otherwise clear a stale directory if one exists and
run the pipeline (the source calls `process_video` with segment duration 4). -/
def vdlHandleMessage (env : DlEnv) (base_dir name : String) (is_key_changeable : Bool) :
    Except VideoProcessError String × Option VideoStatus × List PipelineStep :=
  let video_path := base_dir ++ "/" ++ name
  if cacheCheck env base_dir name is_key_changeable then
    (.ok "success", none, [])
  else if env.fs video_path then
    if env.removeDirOk then
      let r := process_video env is_key_changeable 4
      (r.1, r.2.1, .clearDir :: r.2.2)
    else (.error (.pitchShiftError "Failed to clear existing folder"), none, [.clearDir])
  else process_video env is_key_changeable 4

/-! DASH transcode command builder (`dash_processor.rs`).

The `f64` pitch ratio `2f64.powf(semitones as f64 / 12.0)` and its `Display`
formatting are abstracted in the string builders as a parameter
`fmtRate : Int → String` (the printed form of the ratio for a given semitone
offset); the ratio value itself is modelled over `ℝ` by `rate_multiplier`. -/

/-- The pitch ratio the source computes for a semitone offset:
`2f64.powf(*semitones as f64 / 12.0)`, over `ℝ`. -/
noncomputable def rate_multiplier (semitones : Int) : ℝ :=
  (2 : ℝ) ^ ((semitones : ℝ) / 12)

/-- Rust `String::pop`: the string with its last character removed. -/
def popChar (s : String) : String := ⟨s.data.dropLast⟩

/-- Rust `str::trim`: leading and trailing whitespace removed (defined over the
character list so it is kernel-reducible, unlike `String.trim`). -/
def trimStr (s : String) : String :=
  ⟨((s.data.dropWhile Char.isWhitespace).reverse.dropWhile Char.isWhitespace).reverse⟩

/-- Translation of `DashProcessor::build_filter_complex`; `fmtRate`
stands for the formatted `rate_multiplier`. -/
def build_filter_complex (fmtRate : Int → String) : ProcessingMode → Option String
  | .copy => some "[0:a]loudnorm=I=-16:TP=-1.5:LRA=11[normalized]"
  | .pitchShift shifts =>
      let num_streams := shifts.length
      let f0 := "[0:a]asplit=" ++ toString num_streams
      let f1 := (List.range num_streams).foldl (fun acc i => acc ++ ("[a" ++ toString i ++ "]")) f0
      let f2 := f1.push ';'
      let f3 := shifts.enum.foldl
        (fun acc p =>
          acc ++ (" [a" ++ toString p.1 ++ "]rubberband=pitch=" ++ fmtRate p.2 ++
            ",loudnorm=I=-16:TP=-1.5:LRA=11[p" ++ toString p.1 ++ "];"))
        f2
      some (popChar f3)

/-- Translation of `DashProcessor::build_adaptation_sets`. -/
def build_adaptation_sets : ProcessingMode → String
  | .copy => "id=0,streams=0 id=1,streams=1"
  | .pitchShift shifts =>
      trimStr (shifts.enum.foldl
        (fun acc p =>
          acc ++ ("id=" ++ toString (p.1 + 1) ++ ",streams=" ++ toString (p.1 + 1) ++ " "))
        "id=0,streams=0 ")

/-- Translation of `DashProcessor::build_stream_mappings`. -/
def build_stream_mappings : ProcessingMode → List String
  | .copy => ["-map", "0:v"] ++ ["-map", "[normalized]"]
  | .pitchShift shifts =>
      (List.range shifts.length).foldl
        (fun acc i => acc ++ ["-map", "[p" ++ toString i ++ "]"]) ["-map", "0:v"]

/-- Translation of `DashProcessor::build_audio_encodings`. -/
def build_audio_encodings : ProcessingMode → List String
  | .copy => ["-c:a", "aac", "-b:a", "128k"]
  | .pitchShift shifts =>
      (List.range shifts.length).foldl
        (fun acc i => acc ++ ["-c:a:" ++ toString i, "aac", "-b:a:" ++ toString i, "128k"]) []

/-- A list is a permutation of its element at `i` consed onto the list with
index `i` erased. -/
lemma perm_getElem_cons_eraseIdx (l : List Song) (i : Nat) (h : i < l.length) :
    l.Perm (l[i] :: l.eraseIdx i) := by
  conv_lhs => rw [← List.take_append_drop i l, List.drop_eq_getElem_cons h]
  rw [List.eraseIdx_eq_take_drop_succ]
  exact List.perm_middle

/-- Every handler keeps the key offset inside `[-3, 3]`. -/
lemma handleMessage_key_bounds (s : SongState) (m : SongActorMessage)
    (h₁ : -3 ≤ s.current_key) (h₂ : s.current_key ≤ 3) :
    -3 ≤ (handleMessage s m).1.current_key ∧ (handleMessage s m).1.current_key ≤ 3 := by
  cases m with
  | queueSong song =>
      by_cases hq : s.song_deque.any (fun x => songEq x song) <;>
        simp [handleMessage, hq, h₁, h₂]
  | removeSong u => simp [handleMessage, h₁, h₂]
  | popSong => simp [handleMessage]
  | reposition u p =>
      cases hf : s.song_deque.findIdx? (fun x => x.uuid == u) with
      | none => simp [handleMessage, hf, h₁, h₂]
      | some i =>
          cases hg : s.song_deque[i]? with
          | none => simp [handleMessage, hf, hg, h₁, h₂]
          | some song => simp [handleMessage, hf, hg, h₁, h₂]
  | current => simp [handleMessage, h₁, h₂]
  | getQueue => simp [handleMessage, h₁, h₂]
  | keyUp =>
      by_cases hk : s.current_key ≥ 3 <;> simp [handleMessage, hk] <;> omega
  | keyDown =>
      by_cases hk : s.current_key ≤ -3 <;> simp [handleMessage, hk] <;> omega
  | getKey => simp [handleMessage, h₁, h₂]
  | updateSongStatus u st =>
      by_cases hq : s.song_deque.any (fun x => x.uuid == u) <;>
        simp [handleMessage, hq, h₁, h₂]

lemma runSongActor_key_bounds (s : SongState) (msgs : List SongActorMessage)
    (h₁ : -3 ≤ s.current_key) (h₂ : s.current_key ≤ 3) :
    -3 ≤ (runSongActor s msgs).current_key ∧ (runSongActor s msgs).current_key ≤ 3 := by
  induction msgs generalizing s with
  | nil => exact ⟨h₁, h₂⟩
  | cons m ms ih =>
      obtain ⟨g₁, g₂⟩ := handleMessage_key_bounds s m h₁ h₂
      exact ih _ g₁ g₂

/-- C1: for every sequence of Enqueue/Remove/Reposition/Pop (and the other
actor) operations, the final state of the actor loop equals the state produced
by replaying the same operations sequentially in mailbox-arrival order: the
single message loop handles one message at a time, so the run is exactly the
sequential fold. -/
theorem c1_queue_mutation_serializability (s : SongState) (msgs : List SongActorMessage) :
    runSongActor s msgs = replaySequentially s msgs := by
  induction msgs generalizing s with
  | nil => rfl
  | cons m ms ih => simpa [runSongActor, replaySequentially] using ih (handleMessage s m).1

/-- C2: Enqueue fails with `SongAlreadyQueued` iff some queued song matches
the new song by uuid OR by name; on that failure the state is unchanged and
nothing is broadcast; otherwise the song is appended at the tail, the reply is
`Ok`, and the new queue is broadcast. -/
theorem c2_enqueue_duplicate_policy (s : SongState) (song : Song) :
    ((∃ x ∈ s.song_deque, x.uuid = song.uuid ∨ x.name = song.name) ↔
      (handleMessage s (.queueSong song)).2.1 =
        .unitRes (.error (.songAlreadyQueued song.name)))
    ∧ ((∃ x ∈ s.song_deque, x.uuid = song.uuid ∨ x.name = song.name) →
        handleMessage s (.queueSong song) =
          (s, .unitRes (.error (.songAlreadyQueued song.name)), []))
    ∧ (¬ (∃ x ∈ s.song_deque, x.uuid = song.uuid ∨ x.name = song.name) →
        handleMessage s (.queueSong song) =
          ({ s with song_deque := s.song_deque ++ [song] }, .unitRes (.ok ()),
            [.queueUpdated (s.song_deque ++ [song])])) := by
  have hiff : s.song_deque.any (fun x => songEq x song) = true ↔
      ∃ x ∈ s.song_deque, x.uuid = song.uuid ∨ x.name = song.name := by
    simp [List.any_eq_true, songEq]
  by_cases hdup : ∃ x ∈ s.song_deque, x.uuid = song.uuid ∨ x.name = song.name
  · have hb : s.song_deque.any (fun x => songEq x song) = true := hiff.mpr hdup
    refine ⟨?_, fun _ => ?_, fun hc => absurd hdup hc⟩ <;> simp [handleMessage, hb, hdup]
  · have hb : s.song_deque.any (fun x => songEq x song) = false := by
      rw [← Bool.not_eq_true]
      exact fun hc => hdup (hiff.mp hc)
    refine ⟨?_, fun hc => absurd hc hdup, fun _ => ?_⟩ <;> simp [handleMessage, hb, hdup]

/-- C2 witness at concrete inputs: a duplicate-name enqueue fails and leaves
the state unchanged. -/
theorem c2_enqueue_duplicate_policy_witness :
    (∃ x ∈ [Song.mk "X" 1 "L1" .inProgress false],
        x.uuid = (Song.mk "X" 2 "L2" .inProgress false).uuid ∨
        x.name = (Song.mk "X" 2 "L2" .inProgress false).name)
    ∧ handleMessage ⟨[Song.mk "X" 1 "L1" .inProgress false], 0⟩
        (.queueSong (Song.mk "X" 2 "L2" .inProgress false)) =
      (⟨[Song.mk "X" 1 "L1" .inProgress false], 0⟩,
        .unitRes (.error (.songAlreadyQueued "X")), []) := by
  refine ⟨by decide, ?_⟩
  exact (c2_enqueue_duplicate_policy ⟨[Song.mk "X" 1 "L1" .inProgress false], 0⟩
    (Song.mk "X" 2 "L2" .inProgress false)).2.1 (by decide)

/-- C3: the key offset always stays in `[-3, 3]` along every run from the
initial state; in any in-range state, KeyUp fails (with `KeyUpFailed`) exactly
when the offset is `3` and KeyDown fails exactly when it is `-3`, both failures
leave the whole state unchanged and broadcast nothing, and on success the reply
carries the incremented/decremented offset. -/
theorem c3_key_offset_bounds :
    (∀ msgs : List SongActorMessage,
      -3 ≤ (runSongActor .initial msgs).current_key ∧
        (runSongActor .initial msgs).current_key ≤ 3)
    ∧ (∀ s : SongState, -3 ≤ s.current_key → s.current_key ≤ 3 →
        ((handleMessage s .keyUp).2.1 = .keyRes (.error .keyUpFailed) ↔ s.current_key = 3)
        ∧ (s.current_key = 3 →
            handleMessage s .keyUp = (s, .keyRes (.error .keyUpFailed), []))
        ∧ (s.current_key ≠ 3 →
            handleMessage s .keyUp =
              ({ s with current_key := s.current_key + 1 },
                .keyRes (.ok (s.current_key + 1)), [.keyChange (s.current_key + 1)]))
        ∧ ((handleMessage s .keyDown).2.1 = .keyRes (.error .keyDownFailed) ↔ s.current_key = -3)
        ∧ (s.current_key = -3 →
            handleMessage s .keyDown = (s, .keyRes (.error .keyDownFailed), []))
        ∧ (s.current_key ≠ -3 →
            handleMessage s .keyDown =
              ({ s with current_key := s.current_key - 1 },
                .keyRes (.ok (s.current_key - 1)), [.keyChange (s.current_key - 1)]))) := by
  refine ⟨fun msgs => runSongActor_key_bounds _ msgs (by norm_num [SongState.initial])
      (by norm_num [SongState.initial]), fun s h₁ h₂ => ?_⟩
  refine ⟨?_, fun h3 => ?_, fun h3 => ?_, ?_, fun h3 => ?_, fun h3 => ?_⟩
  · by_cases hk : s.current_key ≥ 3 <;> simp [handleMessage, hk] <;> omega
  · have hk : s.current_key ≥ 3 := by omega
    simp [handleMessage, hk]
  · have hk : ¬ s.current_key ≥ 3 := by omega
    simp [handleMessage, hk]
  · by_cases hk : s.current_key ≤ -3 <;> simp [handleMessage, hk] <;> omega
  · have hk : s.current_key ≤ -3 := by omega
    simp [handleMessage, hk]
  · have hk : ¬ s.current_key ≤ -3 := by omega
    simp [handleMessage, hk]

/-- C3 witness at concrete state `key = 3`: KeyUp fails and leaves the
state unchanged; at `key = 0` KeyUp succeeds with reply `1`. -/
theorem c3_key_offset_bounds_witness :
    handleMessage ⟨[], 3⟩ .keyUp = (⟨[], 3⟩, .keyRes (.error .keyUpFailed), [])
    ∧ handleMessage ⟨[], 0⟩ .keyUp = (⟨[], 0 + 1⟩, .keyRes (.ok (0 + 1)), [.keyChange (0 + 1)]) := by
  exact ⟨(c3_key_offset_bounds.2 ⟨[], 3⟩ (by norm_num) (by norm_num)).2.1 rfl,
    (c3_key_offset_bounds.2 ⟨[], 0⟩ (by norm_num) (by norm_num)).2.2.1 (by norm_num)⟩

/-- C4: Pop removes and returns the head song (`none` when the queue is
empty), unconditionally resets the key offset to `0` — including on an empty
queue — and broadcasts a queue-changed event in every case. -/
theorem c4_pop_semantics (s : SongState) :
    handleMessage s .popSong =
      ({ song_deque := s.song_deque.tail, current_key := 0 },
        .optSong s.song_deque.head?,
        [.queueUpdated s.song_deque.tail]) := rfl

/-- C5: Reposition never errors: it is a no-op success when no queued song
has the uuid; otherwise it removes the first matching song and reinserts it at
`min position (length after removal)` (so an out-of-range index lands at the
tail), and the resulting queue is a permutation of the original (the set of
queued songs is unchanged). -/
theorem c5_reposition_clamped (s : SongState) (uuid : Nat) (position : Nat) :
    (handleMessage s (.reposition uuid position)).2.1 = .unitRes (.ok ())
    ∧ (handleMessage s (.reposition uuid position)).1.song_deque.Perm s.song_deque
    ∧ (handleMessage s (.reposition uuid position)).1.current_key = s.current_key
    ∧ ((∀ x ∈ s.song_deque, x.uuid ≠ uuid) →
        handleMessage s (.reposition uuid position) = (s, .unitRes (.ok ()), []))
    ∧ (∀ i, s.song_deque.findIdx? (fun x => x.uuid == uuid) = some i →
        ∃ h : i < s.song_deque.length,
          (handleMessage s (.reposition uuid position)).1.song_deque =
            (s.song_deque.eraseIdx i).insertIdx
              (min position (s.song_deque.eraseIdx i).length) s.song_deque[i]
          ∧ ((s.song_deque.eraseIdx i).length ≤ position →
              (handleMessage s (.reposition uuid position)).1.song_deque =
                s.song_deque.eraseIdx i ++ [s.song_deque[i]])) := by
  cases hf : s.song_deque.findIdx? (fun x => x.uuid == uuid) with
  | none =>
      exact ⟨by simp [handleMessage, hf], by simp [handleMessage, hf],
        by simp [handleMessage, hf], fun _ => by simp [handleMessage, hf],
        fun i hi => absurd hi (by simp)⟩
  | some i =>
      obtain ⟨hlt, hp, -⟩ := List.findIdx?_eq_some_iff_getElem.mp hf
      have hgs : s.song_deque[i]? = some s.song_deque[i] :=
        List.getElem?_eq_getElem hlt
      have hq : (handleMessage s (.reposition uuid position)).1.song_deque =
          (s.song_deque.eraseIdx i).insertIdx
            (min position (s.song_deque.eraseIdx i).length) s.song_deque[i] := by
        simp [handleMessage, hf, hgs]
      refine ⟨by simp [handleMessage, hf, hgs], ?_, by simp [handleMessage, hf, hgs],
        fun hno => ?_, fun j hj => ?_⟩
      · rw [hq]
        exact (List.perm_insertIdx _ _ (min_le_right _ _)).trans
          (perm_getElem_cons_eraseIdx s.song_deque i hlt).symm
      · exact absurd (by simpa using hp) (hno _ (List.getElem_mem hlt))
      · obtain rfl : i = j := by simpa using hj
        refine ⟨hlt, hq, fun hle => ?_⟩
        rw [hq, min_eq_right hle, List.insertIdx_length_self]

/-- C5 witness at a concrete two-song queue: repositioning the head song to
an out-of-range index 99 succeeds and lands it at the tail. -/
theorem c5_reposition_clamped_witness :
    (handleMessage ⟨[Song.mk "A" 1 "l1" .inProgress false,
        Song.mk "B" 2 "l2" .inProgress false], 0⟩ (.reposition 1 99)).1.song_deque =
      [Song.mk "B" 2 "l2" .inProgress false, Song.mk "A" 1 "l1" .inProgress false] := by
  obtain ⟨h, heq, htail⟩ := (c5_reposition_clamped
    ⟨[Song.mk "A" 1 "l1" .inProgress false, Song.mk "B" 2 "l2" .inProgress false], 0⟩
    1 99).2.2.2.2 0 (by decide)
  rw [htail (by decide)]
  rfl

/-- C6: the cache check reports a hit iff the manifest file exists, it parses
to some manifest, a pitch-changeable request implies a pitch-changeable
manifest (asymmetric compatibility), and the chunk file indexed by the
manifest's segment count exists; the filesystem-coherence hypothesis says a
file inside the directory implies the directory exists (so any failure in the
chain, missing directory included, is a miss). -/
theorem c6_cache_hit_conditions (env : DlEnv) (base_dir name : String) (is_kc : Bool)
    (hcoh : env.fs (base_dir ++ "/" ++ name ++ "/status.json") = true →
      env.fs (base_dir ++ "/" ++ name) = true) :
    cacheCheck env base_dir name is_kc = true ↔
      env.fs (base_dir ++ "/" ++ name ++ "/status.json") = true
      ∧ ∃ st : VideoStatus,
          env.readStatus (base_dir ++ "/" ++ name ++ "/status.json") = some st
          ∧ (is_kc = true → st.is_key_changeable = true)
          ∧ env.fs (base_dir ++ "/" ++ name ++ "/chunk-stream1-" ++
              pad5 st.segments ++ ".m4s") = true := by
  cases hfs : env.fs (base_dir ++ "/" ++ name ++ "/status.json") with
  | false => simp [cacheCheck, video_exists, hfs]
  | true =>
      have hdir : env.fs (base_dir ++ "/" ++ name) = true := hcoh hfs
      cases hst : env.readStatus (base_dir ++ "/" ++ name ++ "/status.json") with
      | none => simp [cacheCheck, video_exists, hfs, hst]
      | some st =>
          by_cases hkc : (is_kc && !st.is_key_changeable) = true
          · obtain ⟨h1, h2⟩ := Bool.and_eq_true .. |>.mp hkc
            simp only [Bool.not_eq_true'] at h2
            simp [cacheCheck, video_exists, hfs, hst, hkc, h1, h2]
          · have himp : is_kc = true → st.is_key_changeable = true := by
              intro h1
              rcases h : st.is_key_changeable with _ | _
              · exact absurd (by simp [h1, h]) hkc
              · rfl
            simp [cacheCheck, video_exists, hfs, hst, hkc, hdir, himp]
            exact fun _ => himp

/-- C6 witness, the spec's concrete example: with manifest
`{segments = 3, is_key_changeable = true}` and segment file 3 present, a
non-pitch-changeable request hits the cache; with manifest
`{segments = 3, is_key_changeable = false}`, a pitch-changeable request
misses. -/
theorem c6_cache_hit_conditions_witness :
    cacheCheck
      { fs := fun p => p == "videos/song" || p == "videos/song/status.json" ||
          p == "videos/song/chunk-stream1-00003.m4s",
        readStatus := fun p =>
          if p == "videos/song/status.json" then some ⟨3, true⟩ else none,
        download := .error "unused", removeDirOk := false, createStatusOk := false,
        writeStatusOk := false, transcodeOk := false }
      "videos" "song" false = true
    ∧ cacheCheck
      { fs := fun p => p == "videos/song" || p == "videos/song/status.json" ||
          p == "videos/song/chunk-stream1-00003.m4s",
        readStatus := fun p =>
          if p == "videos/song/status.json" then some ⟨3, false⟩ else none,
        download := .error "unused", removeDirOk := false, createStatusOk := false,
        writeStatusOk := false, transcodeOk := false }
      "videos" "song" true = false := by
  constructor
  · exact (c6_cache_hit_conditions _ "videos" "song" false (fun _ => by decide)).mpr
      ⟨by decide, ⟨3, true⟩, by decide, by decide, by decide⟩
  · have h := c6_cache_hit_conditions
      { fs := fun p => p == "videos/song" || p == "videos/song/status.json" ||
          p == "videos/song/chunk-stream1-00003.m4s",
        readStatus := fun p =>
          if p == "videos/song/status.json" then some ⟨3, false⟩ else none,
        download := .error "unused", removeDirOk := false, createStatusOk := false,
        writeStatusOk := false, transcodeOk := false }
      "videos" "song" true (fun _ => by decide)
    rcases hcc : cacheCheck
      { fs := fun p => p == "videos/song" || p == "videos/song/status.json" ||
          p == "videos/song/chunk-stream1-00003.m4s",
        readStatus := fun p =>
          if p == "videos/song/status.json" then some ⟨3, false⟩ else none,
        download := .error "unused", removeDirOk := false, createStatusOk := false,
        writeStatusOk := false, transcodeOk := false }
      "videos" "song" true with _ | _
    · rfl
    · obtain ⟨-, st, hst, himp, -⟩ := h.mp hcc
      have hsteq : st = ⟨3, false⟩ := by
        have h2 := hst
        simp at h2
        exact h2.symm
      rw [hsteq] at himp
      exact absurd (himp rfl) (by decide)

/-- C7: on the pipeline path, a fetch failure aborts the job with no manifest
written and only the fetch stage run; when fetch and the manifest write
succeed, the persisted manifest is `{segments = ceil(duration / 4),
is_key_changeable}` and the stages run in order fetch, write-manifest,
transcode — a transcode failure aborts the job with that manifest still on
disk, while transcode success yields the fetched media path; and (for
nonnegative, non-saturating durations) the recorded segment count equals the
exact ceiling. -/
theorem c7_pipeline_order_and_aborts (env : DlEnv) (is_kc : Bool) (md : VideoMetadata) :
    (∀ e, env.download = .error e →
      process_video env is_kc 4 = (.error (.downloadError e), none, [.fetch]))
    ∧ (env.download = .ok md → env.createStatusOk = true → env.writeStatusOk = true →
        env.transcodeOk = false →
        process_video env is_kc 4 =
          (.error (.pitchShiftError "Pitch shift failed"),
            some ⟨satU32 ⌈md.duration_seconds / ((4 : Nat) : ℚ)⌉, is_kc⟩,
            [.fetch, .writeManifest ⟨satU32 ⌈md.duration_seconds / ((4 : Nat) : ℚ)⌉, is_kc⟩,
              .transcode (selectMode is_kc)]))
    ∧ (env.download = .ok md → env.createStatusOk = true → env.writeStatusOk = true →
        env.transcodeOk = true →
        process_video env is_kc 4 =
          (.ok (md.directory ++ "/" ++ md.filename ++ "." ++ md.extension),
            some ⟨satU32 ⌈md.duration_seconds / ((4 : Nat) : ℚ)⌉, is_kc⟩,
            [.fetch, .writeManifest ⟨satU32 ⌈md.duration_seconds / ((4 : Nat) : ℚ)⌉, is_kc⟩,
              .transcode (selectMode is_kc)]))
    ∧ (0 ≤ md.duration_seconds → ⌈md.duration_seconds / ((4 : Nat) : ℚ)⌉ < 2 ^ 32 →
        ((satU32 ⌈md.duration_seconds / ((4 : Nat) : ℚ)⌉ : Nat) : Int) =
          ⌈md.duration_seconds / ((4 : Nat) : ℚ)⌉) := by
  refine ⟨fun e h => by simp [process_video, h],
    fun h hc hw ht => by simp [process_video, h, hc, hw, ht],
    fun h hc hw ht => by simp [process_video, h, hc, hw, ht],
    fun h0 h1 => ?_⟩
  have h2 : (0 : Int) ≤ ⌈md.duration_seconds / ((4 : Nat) : ℚ)⌉ :=
    Int.ceil_nonneg (by positivity)
  unfold satU32
  omega

/-- C7 witness at a concrete job: a 10-second fetch with segment duration 4
persists a manifest with 3 segments and, on transcode success, responds with
the fetched media path. -/
theorem c7_pipeline_order_and_aborts_witness :
    process_video
      { fs := fun _ => false, readStatus := fun _ => none,
        download := .ok ⟨"videos/song", "song", "mp4", 10⟩,
        removeDirOk := false, createStatusOk := true,
        writeStatusOk := true, transcodeOk := true }
      false 4 =
      (.ok "videos/song/song.mp4", some ⟨3, false⟩,
        [.fetch, .writeManifest ⟨3, false⟩, .transcode .copy]) := by
  have h := (c7_pipeline_order_and_aborts
    { fs := fun _ => false, readStatus := fun _ => none,
      download := .ok ⟨"videos/song", "song", "mp4", 10⟩,
      removeDirOk := false, createStatusOk := true,
      writeStatusOk := true, transcodeOk := true }
    false ⟨"videos/song", "song", "mp4", 10⟩).2.2.1 rfl rfl rfl rfl
  rw [h]
  have hc : (⌈(10 : ℚ) / ((4 : Nat) : ℚ)⌉ : Int) = 3 := by
    rw [Int.ceil_eq_iff]
    norm_num
  have hseg : satU32 ⌈(10 : ℚ) / ((4 : Nat) : ℚ)⌉ = 3 := by rw [hc]; rfl
  simp only [hseg]
  rfl

/-- C8: with pitch shifting requested, `process_video` selects
`PitchShift [-3,-2,-1,0,1,2,3]` and the ffmpeg command builders produce an
`asplit` into exactly 7 streams, one `rubberband` pitch filter plus `loudnorm`
per semitone offset in order, 7 audio stream mappings and 7 independent AAC
encodings, and 8 adaptation sets (one video plus one per pitch variant); in
copy mode there is a single normalized audio stream with one audio and one
video adaptation set. The pitch ratio for `s` semitones is
`2 ^ (s / 12)` over the reals: it is `1` at offset 0, doubles every 12
semitones, and is strictly monotone. The `f64` formatting of the ratio is
abstracted by the formatter argument, instantiated here with a marker. -/
theorem c8_transcode_stream_structure :
    selectMode true = .pitchShift [-3, -2, -1, 0, 1, 2, 3]
    ∧ selectMode false = .copy
    ∧ (∀ fmtRate : Int → String, build_filter_complex fmtRate .copy =
        some "[0:a]loudnorm=I=-16:TP=-1.5:LRA=11[normalized]")
    ∧ build_filter_complex (fun s => "<" ++ toString s ++ ">")
        (.pitchShift [-3, -2, -1, 0, 1, 2, 3]) =
      some ("[0:a]asplit=7[a0][a1][a2][a3][a4][a5][a6];" ++
        " [a0]rubberband=pitch=<-3>,loudnorm=I=-16:TP=-1.5:LRA=11[p0];" ++
        " [a1]rubberband=pitch=<-2>,loudnorm=I=-16:TP=-1.5:LRA=11[p1];" ++
        " [a2]rubberband=pitch=<-1>,loudnorm=I=-16:TP=-1.5:LRA=11[p2];" ++
        " [a3]rubberband=pitch=<0>,loudnorm=I=-16:TP=-1.5:LRA=11[p3];" ++
        " [a4]rubberband=pitch=<1>,loudnorm=I=-16:TP=-1.5:LRA=11[p4];" ++
        " [a5]rubberband=pitch=<2>,loudnorm=I=-16:TP=-1.5:LRA=11[p5];" ++
        " [a6]rubberband=pitch=<3>,loudnorm=I=-16:TP=-1.5:LRA=11[p6]")
    ∧ build_adaptation_sets (.pitchShift [-3, -2, -1, 0, 1, 2, 3]) =
      "id=0,streams=0 id=1,streams=1 id=2,streams=2 id=3,streams=3 id=4,streams=4" ++
        " id=5,streams=5 id=6,streams=6 id=7,streams=7"
    ∧ build_adaptation_sets .copy = "id=0,streams=0 id=1,streams=1"
    ∧ build_stream_mappings (.pitchShift [-3, -2, -1, 0, 1, 2, 3]) =
      ["-map", "0:v", "-map", "[p0]", "-map", "[p1]", "-map", "[p2]", "-map", "[p3]",
        "-map", "[p4]", "-map", "[p5]", "-map", "[p6]"]
    ∧ build_stream_mappings .copy = ["-map", "0:v", "-map", "[normalized]"]
    ∧ build_audio_encodings (.pitchShift [-3, -2, -1, 0, 1, 2, 3]) =
      ["-c:a:0", "aac", "-b:a:0", "128k", "-c:a:1", "aac", "-b:a:1", "128k",
        "-c:a:2", "aac", "-b:a:2", "128k", "-c:a:3", "aac", "-b:a:3", "128k",
        "-c:a:4", "aac", "-b:a:4", "128k", "-c:a:5", "aac", "-b:a:5", "128k",
        "-c:a:6", "aac", "-b:a:6", "128k"]
    ∧ build_audio_encodings .copy = ["-c:a", "aac", "-b:a", "128k"]
    ∧ rate_multiplier 0 = 1
    ∧ rate_multiplier 12 = 2
    ∧ rate_multiplier (-12) = 1 / 2
    ∧ StrictMono rate_multiplier := by
  refine ⟨rfl, rfl, fun _ => rfl, rfl, rfl, rfl, rfl, rfl, rfl, rfl, ?_, ?_, ?_, ?_⟩
  · norm_num [rate_multiplier]
  · norm_num [rate_multiplier]
  · rw [rate_multiplier, show (((-12 : Int) : ℝ)) / 12 = -1 by norm_num, Real.rpow_neg_one]
    norm_num
  · intro a b hab
    rw [rate_multiplier, rate_multiplier, Real.rpow_lt_rpow_left_iff one_lt_two]
    have h : (a : ℝ) < b := by exact_mod_cast hab
    linarith

/-- C9 counterexample: a cache-hit job responds with the constant string
"success", which is not a path into the job's output directory
(`videos/song`), refuting the claim that every successful job response
carries the path to the primary playable asset. -/
theorem c9_counterexample :
    (vdlHandleMessage
      { fs := fun p => p == "videos/song" || p == "videos/song/status.json" ||
          p == "videos/song/chunk-stream1-00003.m4s",
        readStatus := fun p =>
          if p == "videos/song/status.json" then some ⟨3, true⟩ else none,
        download := .error "unused", removeDirOk := false, createStatusOk := false,
        writeStatusOk := false, transcodeOk := false }
      "videos" "song" false).1 = .ok "success"
    ∧ ¬ ("videos" ++ "/" ++ "song").data <+: ("success").data := by
  exact ⟨rfl, by decide⟩

/-- C9 amended: a job answered from the cache responds with the constant
string "success"; every job that runs the full pipeline to success — whether
the output directory was absent, or pre-existed stale and was cleared first —
responds with the path of the fetched media file
`directory/filename.extension`. The pipeline runs exactly when the cache check
fails and, should the directory pre-exist, clearing it succeeds (otherwise the
job aborts before fetching). -/
theorem c9_success_response_content (env : DlEnv) (base_dir name : String)
    (is_kc : Bool) (md : VideoMetadata) :
    (cacheCheck env base_dir name is_kc = true →
      vdlHandleMessage env base_dir name is_kc = (.ok "success", none, []))
    ∧ (cacheCheck env base_dir name is_kc = false →
        (env.fs (base_dir ++ "/" ++ name) = true → env.removeDirOk = true) →
        env.download = .ok md →
        env.createStatusOk = true → env.writeStatusOk = true → env.transcodeOk = true →
        (vdlHandleMessage env base_dir name is_kc).1 =
          .ok (md.directory ++ "/" ++ md.filename ++ "." ++ md.extension)) := by
  constructor
  · intro h
    simp [vdlHandleMessage, h]
  · intro hcc hclear hdl hc hw ht
    cases hfs : env.fs (base_dir ++ "/" ++ name) with
    | false => simp [vdlHandleMessage, hcc, hfs, process_video, hdl, hc, hw, ht]
    | true =>
        have hrm : env.removeDirOk = true := hclear hfs
        simp [vdlHandleMessage, hcc, hfs, hrm, process_video, hdl, hc, hw, ht]

/-- C9 amended witness: at a concrete cache-hit environment the response is
"success"; at a concrete fresh-download environment (no output directory) and
at a concrete stale-directory environment (directory exists, fails the cache
check, is cleared, then the pipeline runs) the response is the fetched media
path. -/
theorem c9_success_response_content_witness :
    vdlHandleMessage
      { fs := fun p => p == "videos/song" || p == "videos/song/status.json" ||
          p == "videos/song/chunk-stream1-00003.m4s",
        readStatus := fun p =>
          if p == "videos/song/status.json" then some ⟨3, true⟩ else none,
        download := .error "unused", removeDirOk := false, createStatusOk := false,
        writeStatusOk := false, transcodeOk := false }
      "videos" "song" false = (.ok "success", none, [])
    ∧ (vdlHandleMessage
      { fs := fun _ => false, readStatus := fun _ => none,
        download := .ok ⟨"videos/song", "song", "mp4", 10⟩,
        removeDirOk := false, createStatusOk := true,
        writeStatusOk := true, transcodeOk := true }
      "videos" "song" false).1 = .ok "videos/song/song.mp4"
    ∧ (vdlHandleMessage
      { fs := fun p => p == "videos/song", readStatus := fun _ => none,
        download := .ok ⟨"videos/song", "song", "mp4", 10⟩,
        removeDirOk := true, createStatusOk := true,
        writeStatusOk := true, transcodeOk := true }
      "videos" "song" false).1 = .ok "videos/song/song.mp4" := by
  refine ⟨?_, ?_, ?_⟩
  · exact (c9_success_response_content _ "videos" "song" false
      ⟨"videos/song", "song", "mp4", 10⟩).1 (by decide)
  · exact (c9_success_response_content _ "videos" "song" false
      ⟨"videos/song", "song", "mp4", 10⟩).2 (by decide) (by decide) rfl rfl rfl rfl
  · exact (c9_success_response_content _ "videos" "song" false
      ⟨"videos/song", "song", "mp4", 10⟩).2 (by decide) (by decide) rfl rfl rfl rfl

/-- C10: Pop broadcasts only a queue-changed event — never a key-change
event — even though it resets the key offset to `0`. -/
theorem c10_pop_never_broadcasts_keychange (s : SongState) :
    (handleMessage s .popSong).2.2 = [.queueUpdated s.song_deque.tail]
    ∧ (∀ k : Int, SseEvent.keyChange k ∉ (handleMessage s .popSong).2.2)
    ∧ (handleMessage s .popSong).1.current_key = 0 := by
  refine ⟨rfl, fun k => ?_, rfl⟩
  simp [handleMessage]

end Ferris
